import Mathlib

/-!
Verification of the guest-side binding layer of the tauri web-bluetooth
plugin: the invocation envelope (`call`, `ping`), the base64 value codec
(`btoa` / `atob` as used by `encodeWritePayload` and `decodeValue`), the
write-payload encoder, and the demo UI's device-cache / subscription state
machine (`refreshDevices`, `startNotify`, `stopNotify`,
`handleDisconnectEvent`, `isSubscribed`).
-/

namespace WebBluetooth

/-! ### Base64 codec

`btoa` / `atob` as invoked by the source: the write path encodes a byte
sequence with `btoa(String.fromCharCode(...bytes))`, and `decodeValue`
recovers bytes with `Uint8Array.from(atob(value), (char) => char.charCodeAt(0))`.
Bytes are `Nat` values below 256. -/

def base64Alphabet : List Char :=
  ['A', 'B', 'C', 'D', 'E', 'F', 'G', 'H', 'I', 'J', 'K', 'L', 'M',
   'N', 'O', 'P', 'Q', 'R', 'S', 'T', 'U', 'V', 'W', 'X', 'Y', 'Z',
   'a', 'b', 'c', 'd', 'e', 'f', 'g', 'h', 'i', 'j', 'k', 'l', 'm',
   'n', 'o', 'p', 'q', 'r', 's', 't', 'u', 'v', 'w', 'x', 'y', 'z',
   '0', '1', '2', '3', '4', '5', '6', '7', '8', '9', '+', '/']

def b64Char (n : Nat) : Char := base64Alphabet.getD n 'A'

def b64Val (c : Char) : Nat := base64Alphabet.findIdx (fun d => d = c)

/-- Base64 encoding of a byte sequence, as `btoa(String.fromCharCode(...bytes))`
produces it: three input bytes become four alphabet characters, a final group
of one or two bytes is padded with `=`. -/
def btoaBytes : List Nat → List Char
  | [] => []
  | [a] => [b64Char (a / 4), b64Char (a % 4 * 16), '=', '=']
  | [a, b] => [b64Char (a / 4), b64Char (a % 4 * 16 + b / 16),
               b64Char (b % 16 * 4), '=']
  | a :: b :: c :: rest =>
      b64Char (a / 4) :: b64Char (a % 4 * 16 + b / 16) ::
      b64Char (b % 16 * 4 + c / 64) :: b64Char (c % 64) :: btoaBytes rest

/-- Base64 decoding to a byte sequence, as `atob` followed by
`charCodeAt` on every character of the result performs it: four input
characters become three bytes, trailing `=` padding shortens the last group. -/
def atobBytes : List Char → List Nat
  | c1 :: c2 :: c3 :: c4 :: rest =>
      if c3 = '=' then
        [b64Val c1 * 4 + b64Val c2 / 16]
      else if c4 = '=' then
        [b64Val c1 * 4 + b64Val c2 / 16, b64Val c2 % 16 * 16 + b64Val c3 / 4]
      else
        (b64Val c1 * 4 + b64Val c2 / 16) ::
        (b64Val c2 % 16 * 16 + b64Val c3 / 4) ::
        (b64Val c3 % 4 * 64 + b64Val c4) :: atobBytes rest
  | _ => []

/-- Byte-level view of the source's `decodeValue`: the bytes it builds with
`Uint8Array.from(atob(value), (char) => char.charCodeAt(0))` before rendering
them as UTF-8 text and as hex. -/
def decodeValueBytes (value : String) : List Nat := atobBytes value.data

theorem b64Val_b64Char : ∀ n < 64, b64Val (b64Char n) = n := by decide

theorem b64Char_ne_pad : ∀ n < 64, b64Char n ≠ '=' := by decide

theorem atobBytes_btoaBytes (bytes : List Nat) (h : ∀ b ∈ bytes, b < 256) :
    atobBytes (btoaBytes bytes) = bytes := by
  induction bytes using btoaBytes.induct with
  | case1 => rfl
  | case2 a =>
      have ha : a < 256 := h a (by simp)
      have h1 : a / 4 < 64 := by omega
      have h2 : a % 4 * 16 < 64 := by omega
      simp only [btoaBytes, atobBytes, ite_true]
      rw [b64Val_b64Char _ h1, b64Val_b64Char _ h2]
      simp only [List.cons.injEq, and_true]
      omega
  | case3 a b =>
      have ha : a < 256 := h a (by simp)
      have hb : b < 256 := h b (by simp)
      have h1 : a / 4 < 64 := by omega
      have h2 : a % 4 * 16 + b / 16 < 64 := by omega
      have h3 : b % 16 * 4 < 64 := by omega
      simp only [btoaBytes, atobBytes, if_neg (b64Char_ne_pad _ h3), ite_true]
      rw [b64Val_b64Char _ h1, b64Val_b64Char _ h2, b64Val_b64Char _ h3]
      simp only [List.cons.injEq, and_true]
      omega
  | case4 a b c rest ih =>
      have ha : a < 256 := h a (by simp)
      have hb : b < 256 := h b (by simp)
      have hc : c < 256 := h c (by simp)
      have h1 : a / 4 < 64 := by omega
      have h2 : a % 4 * 16 + b / 16 < 64 := by omega
      have h3 : b % 16 * 4 + c / 64 < 64 := by omega
      have h4 : c % 64 < 64 := by omega
      have hrest : ∀ x ∈ rest, x < 256 := fun x hx => h x (by simp [hx])
      simp only [btoaBytes, atobBytes, if_neg (b64Char_ne_pad _ h3),
        if_neg (b64Char_ne_pad _ h4)]
      rw [b64Val_b64Char _ h1, b64Val_b64Char _ h2, b64Val_b64Char _ h3,
        b64Val_b64Char _ h4, ih hrest]
      simp only [List.cons.injEq, and_true]
      omega

/-! ### Write payload encoder

Embedding of the demo UI's `encodeWritePayload`, which turns the
`writeValue` input field into the base64 wire value according to
`writeMode` (`text` / `base64` / `hex`). -/

inductive WriteMode where
  | text
  | base64
  | hex
deriving DecidableEq, Repr

/-- Whitespace recognised by the JavaScript `String.prototype.trim` — the
ECMA-262 WhiteSpace and LineTerminator code points: tab, line feed, vertical
tab, form feed, carriage return, space, no-break space, ogham space mark,
the U+2000..U+200A Space_Separator range, line separator, paragraph
separator, narrow no-break space, medium mathematical space, ideographic
space, and zero-width no-break space. -/
def isJsWhitespace (c : Char) : Bool :=
  c.toNat = 9 || c.toNat = 10 || c.toNat = 11 || c.toNat = 12 ||
  c.toNat = 13 || c.toNat = 32 || c.toNat = 160 || c.toNat = 5760 ||
  (8192 ≤ c.toNat && c.toNat ≤ 8202) || c.toNat = 8232 || c.toNat = 8233 ||
  c.toNat = 8239 || c.toNat = 8287 || c.toNat = 12288 || c.toNat = 65279

/-- JavaScript `String.prototype.trim`: strip leading and trailing
whitespace. -/
def jsTrim (s : String) : String :=
  ⟨((s.data.dropWhile isJsWhitespace).reverse.dropWhile isJsWhitespace).reverse⟩

/-- Characters matched by the source's hex-sanitising regular expression
class `[0-9a-fA-F]`. -/
def isHexDigitChar (c : Char) : Bool :=
  (48 ≤ c.toNat && c.toNat ≤ 57) || (97 ≤ c.toNat && c.toNat ≤ 102) ||
  (65 ≤ c.toNat && c.toNat ≤ 70)

/-- Numeric value of one hex digit, as `parseInt` assigns it. -/
def hexDigitVal (c : Char) : Nat :=
  if 48 ≤ c.toNat ∧ c.toNat ≤ 57 then c.toNat - 48
  else if 97 ≤ c.toNat ∧ c.toNat ≤ 102 then c.toNat - 87
  else if 65 ≤ c.toNat ∧ c.toNat ≤ 70 then c.toNat - 55
  else 0

/-- Bytes parsed from a hex string chunked by the source's `.match(/.{1,2}/g)`
followed by `parseInt(pair, 16)`: consecutive two-character chunks, with a
lone trailing digit parsed on its own. -/
def hexPairsToBytes : List Char → List Nat
  | hi :: lo :: rest => (hexDigitVal hi * 16 + hexDigitVal lo) :: hexPairsToBytes rest
  | [hi] => [hexDigitVal hi]
  | [] => []

/-- UTF-8 bytes of one scalar value, as `TextEncoder.encode` emits them. -/
def utf8Bytes (c : Char) : List Nat :=
  let n := c.toNat
  if n < 128 then [n]
  else if n < 2048 then [192 + n / 64, 128 + n % 64]
  else if n < 65536 then [224 + n / 4096, 128 + n / 64 % 64, 128 + n % 64]
  else [240 + n / 262144, 128 + n / 4096 % 64, 128 + n / 64 % 64, 128 + n % 64]

/-- UTF-8 bytes of a whole string (`new TextEncoder().encode(s)`). -/
def utf8Encode (s : String) : List Nat := (s.data.map utf8Bytes).flatten

/-- Embedding of the demo UI's `encodeWritePayload`: trim the input, reject
an empty result, pass base64 mode through, UTF-8-then-base64 encode text
mode, and for hex mode strip non-hex characters (`trimmed` and `sanitized`
of the source are written out inline), require a non-zero even digit count,
parse digit pairs and base64 encode the bytes. Thrown `Error`s become
`Except.error` carrying the message. -/
def encodeWritePayload (writeMode : WriteMode) (writeValue : String) :
    Except String String :=
  if jsTrim writeValue = "" then
    Except.error "Provide data before writing"
  else if writeMode = WriteMode.base64 then
    Except.ok (jsTrim writeValue)
  else if writeMode = WriteMode.text then
    Except.ok ⟨btoaBytes (utf8Encode (jsTrim writeValue))⟩
  else if ((jsTrim writeValue).data.filter isHexDigitChar).length = 0 ∨
      ((jsTrim writeValue).data.filter isHexDigitChar).length % 2 ≠ 0 then
    Except.error "Hex payload must contain an even number of digits"
  else if (hexPairsToBytes ((jsTrim writeValue).data.filter isHexDigitChar)).length = 0 then
    Except.error "Invalid hex payload"
  else
    Except.ok ⟨btoaBytes (hexPairsToBytes ((jsTrim writeValue).data.filter isHexDigitChar))⟩

/-! ### Supporting lemmas for the encoder -/

theorem char_toNat_lt (c : Char) : c.toNat < 1114112 := by
  have h := c.valid
  rcases h with h | ⟨_, h2⟩
  · exact Nat.lt_trans h (by norm_num)
  · exact h2

theorem hexDigitVal_lt (c : Char) : hexDigitVal c < 16 := by
  unfold hexDigitVal
  split_ifs <;> omega

theorem hexPairsToBytes_lt (l : List Char) : ∀ x ∈ hexPairsToBytes l, x < 256 := by
  induction l using hexPairsToBytes.induct with
  | case1 hi lo rest ih =>
      intro x hx
      rcases List.mem_cons.mp hx with rfl | hx
      · have h1 := hexDigitVal_lt hi
        have h2 := hexDigitVal_lt lo
        omega
      · exact ih x hx
  | case2 hi =>
      intro x hx
      rcases List.mem_singleton.mp hx with rfl
      have := hexDigitVal_lt hi
      omega
  | case3 => intro x hx; cases hx

theorem hexPairsToBytes_ne_nil (l : List Char) (h : l ≠ []) :
    hexPairsToBytes l ≠ [] := by
  match l with
  | [] => exact absurd rfl h
  | [hi] => simp [hexPairsToBytes]
  | hi :: lo :: rest => simp [hexPairsToBytes]

theorem utf8Bytes_lt (c : Char) : ∀ b ∈ utf8Bytes c, b < 256 := by
  intro b hb
  have hc := char_toNat_lt c
  simp only [utf8Bytes] at hb
  split_ifs at hb <;> simp at hb <;> omega

theorem utf8Encode_lt (s : String) : ∀ b ∈ utf8Encode s, b < 256 := by
  intro b hb
  simp only [utf8Encode, List.mem_flatten, List.mem_map] at hb
  obtain ⟨l, ⟨c, _, rfl⟩, hbl⟩ := hb
  exact utf8Bytes_lt c b hbl

theorem dropWhile_eq_self_of (p : Char → Bool) (l : List Char)
    (h : ∀ a ∈ l, p a = false) : l.dropWhile p = l := by
  cases l with
  | nil => rfl
  | cons x xs => simp [List.dropWhile, h x (by simp)]

theorem jsTrim_eq_self (s : String) (h : ∀ c ∈ s.data, isJsWhitespace c = false) :
    jsTrim s = s := by
  unfold jsTrim
  rw [dropWhile_eq_self_of _ _ h,
    dropWhile_eq_self_of _ _ (fun c hc => h c (List.mem_reverse.mp hc)),
    List.reverse_reverse]

theorem hexDigit_not_whitespace (c : Char) (h : isHexDigitChar c = true) :
    isJsWhitespace c = false := by
  simp only [isHexDigitChar, Bool.or_eq_true, Bool.and_eq_true,
    decide_eq_true_eq] at h
  simp only [isJsWhitespace, Bool.or_eq_false_iff, Bool.and_eq_false_iff,
    decide_eq_false_iff_not]
  omega

theorem data_ne_nil_iff (s : String) : s.data ≠ [] ↔ s ≠ "" := by
  constructor
  · intro h hs
    rw [hs] at h
    exact h rfl
  · intro h hd
    exact h (String.ext hd)

/-! ### Claim theorems about the codec and the write encoder -/

/-- C2: the value codec is a round trip — for every byte sequence,
decoding (via the byte extraction of `decodeValue`) the base64 string
produced by the write path's `btoa(String.fromCharCode(...bytes))` yields
exactly the original bytes, the empty sequence included. -/
theorem decodeValue_encode_roundTrip (bytes : List Nat)
    (h : ∀ b ∈ bytes, b < 256) :
    decodeValueBytes (String.mk (btoaBytes bytes)) = bytes :=
  atobBytes_btoaBytes bytes h

theorem decodeValue_encode_roundTrip_witness :
    (∀ b ∈ [0, 97, 160, 255], b < 256) ∧
    decodeValueBytes (String.mk (btoaBytes [0, 97, 160, 255])) = [0, 97, 160, 255] :=
  ⟨by decide, decodeValue_encode_roundTrip [0, 97, 160, 255] (by decide)⟩

/-- C5: for every non-empty even-length string of hex digits, the hex-mode
write payload is produced and base64-decodes to the byte sequence given by
the consecutive hex digit pairs. -/
theorem hexPayload_decodes_to_pairs (s : String)
    (hne : s.data ≠ []) (hhex : ∀ c ∈ s.data, isHexDigitChar c = true)
    (heven : s.data.length % 2 = 0) :
    encodeWritePayload WriteMode.hex s =
      Except.ok (String.mk (btoaBytes (hexPairsToBytes s.data))) ∧
    decodeValueBytes (String.mk (btoaBytes (hexPairsToBytes s.data))) =
      hexPairsToBytes s.data := by
  have htrim : jsTrim s = s :=
    jsTrim_eq_self s (fun c hc => hexDigit_not_whitespace c (hhex c hc))
  have hfilter : s.data.filter isHexDigitChar = s.data :=
    List.filter_eq_self.mpr hhex
  have hsne : s ≠ "" := (data_ne_nil_iff s).mp hne
  constructor
  · unfold encodeWritePayload
    rw [htrim, hfilter, if_neg hsne, if_neg (by decide), if_neg (by decide),
      if_neg (by
        rintro (hlen | hodd)
        · exact hne (List.length_eq_zero.mp hlen)
        · exact hodd heven),
      if_neg (by
        intro hlen
        exact hexPairsToBytes_ne_nil s.data hne (List.length_eq_zero.mp hlen))]
  · exact atobBytes_btoaBytes _ (hexPairsToBytes_lt s.data)

theorem hexPayload_decodes_to_pairs_witness :
    ("a1".data ≠ [] ∧ (∀ c ∈ "a1".data, isHexDigitChar c = true) ∧
      "a1".data.length % 2 = 0) ∧
    hexPairsToBytes "a1".data = [161] ∧
    encodeWritePayload WriteMode.hex "a1" =
      Except.ok (String.mk (btoaBytes (hexPairsToBytes "a1".data))) ∧
    decodeValueBytes (String.mk (btoaBytes (hexPairsToBytes "a1".data))) =
      hexPairsToBytes "a1".data :=
  ⟨⟨by decide, by decide, by decide⟩, by decide,
   (hexPayload_decodes_to_pairs "a1" (by decide) (by decide) (by decide)).1,
   (hexPayload_decodes_to_pairs "a1" (by decide) (by decide) (by decide)).2⟩

/-- C4 counterexample: the input string "a1 b2" contains a character that is
not a hex digit (the space), yet hex-mode encoding does not fail — the
sanitising step strips the space and the remaining four digits encode to
"obI=". -/
theorem hexPayload_sanitize_cex :
    isHexDigitChar ' ' = false ∧
    encodeWritePayload WriteMode.hex "a1 b2" = Except.ok "obI=" := by
  constructor
  · decide
  · rfl

/-- C4 amended: non-hex characters are stripped before validation, so for
every input whose trim is non-empty, hex-mode encoding fails (with the
even-digit-count error) exactly when the hex-digit subsequence of the
trimmed input is empty or has odd length. -/
theorem hexPayload_error_iff (s : String) (h : jsTrim s ≠ "") :
    (∃ e, encodeWritePayload WriteMode.hex s = Except.error e) ↔
      (((jsTrim s).data.filter isHexDigitChar).length = 0 ∨
        ((jsTrim s).data.filter isHexDigitChar).length % 2 ≠ 0) := by
  unfold encodeWritePayload
  rw [if_neg h, if_neg (by decide), if_neg (by decide)]
  by_cases hc : ((jsTrim s).data.filter isHexDigitChar).length = 0 ∨
      ((jsTrim s).data.filter isHexDigitChar).length % 2 ≠ 0
  · rw [if_pos hc]
    exact ⟨fun _ => hc, fun _ => ⟨_, rfl⟩⟩
  · rw [if_neg hc]
    have hfne : (jsTrim s).data.filter isHexDigitChar ≠ [] := by
      intro hnil
      exact hc (Or.inl (by rw [hnil]; rfl))
    rw [if_neg (by
      intro hlen
      exact hexPairsToBytes_ne_nil _ hfne (List.length_eq_zero.mp hlen))]
    constructor
    · rintro ⟨e, he⟩
      exact absurd he (by simp)
    · intro hcon
      exact absurd hcon hc

theorem hexPayload_error_iff_witness :
    jsTrim "zz" ≠ "" ∧
    (∃ e, encodeWritePayload WriteMode.hex "zz" = Except.error e) :=
  ⟨by decide, (hexPayload_error_iff "zz" (by decide)).mpr (by decide)⟩

/-- C7 counterexample: for the non-empty text-mode input "a " the encoder
trims the input first, so the produced payload decodes to the UTF-8 bytes of
"a", not of "a " — the claim fails on inputs with surrounding whitespace. -/
theorem textPayload_trim_cex :
    encodeWritePayload WriteMode.text "a " = Except.ok "YQ==" ∧
    decodeValueBytes "YQ==" ≠ utf8Encode "a " := by
  constructor
  · rfl
  · decide

/-- C7 amended: for every text-mode input whose JavaScript trim is
non-empty, the encoder succeeds and the payload base64-decodes to the UTF-8
byte encoding of the trimmed input (hence of the input itself whenever the
input carries no surrounding whitespace). -/
theorem textPayload_utf8 (s : String) (h : jsTrim s ≠ "") :
    encodeWritePayload WriteMode.text s =
      Except.ok (String.mk (btoaBytes (utf8Encode (jsTrim s)))) ∧
    decodeValueBytes (String.mk (btoaBytes (utf8Encode (jsTrim s)))) =
      utf8Encode (jsTrim s) := by
  constructor
  · unfold encodeWritePayload
    rw [if_neg h, if_neg (by decide), if_pos rfl]
  · exact atobBytes_btoaBytes _ (utf8Encode_lt (jsTrim s))

theorem textPayload_utf8_witness :
    jsTrim "hi" ≠ "" ∧
    (encodeWritePayload WriteMode.text "hi" =
        Except.ok (String.mk (btoaBytes (utf8Encode (jsTrim "hi")))) ∧
      decodeValueBytes (String.mk (btoaBytes (utf8Encode (jsTrim "hi")))) =
        utf8Encode (jsTrim "hi")) :=
  ⟨by decide, textPayload_utf8 "hi" (by decide)⟩

/-! ### Demo UI state machine

The mutable state of the example Svelte page that the subscription and
device-cache claims are about: the `devices` cache mirror, the selected
`activeDeviceId` (`null` is `none`), the working service/characteristic
UUIDs of the form (`''` when unset), and the list of subscription keys. -/

structure BluetoothDevice where
  id : String
  name : Option String
  uuids : List String
  watchingAdvertisements : Bool
  connected : Bool
deriving DecidableEq, Repr

structure DeviceEventPayload where
  deviceId : String
deriving DecidableEq, Repr

structure UiState where
  devices : List BluetoothDevice
  activeDeviceId : Option String
  workingServiceUuid : String
  workingCharacteristicUuid : String
  subscribedKeys : List String
deriving DecidableEq, Repr

/-- JavaScript `String.prototype.startsWith`, on the character lists of the
two strings. -/
def isPrefixList : List Char → List Char → Bool
  | [], _ => true
  | _ :: _, [] => false
  | a :: as, b :: bs => a = b && isPrefixList as bs

def strStartsWith (s p : String) : Bool := isPrefixList p.data s.data

/-- Subscription key of the source's `subKey`:
``deviceId|serviceUuid|characteristicUuid``. -/
def subKey (deviceId serviceUuid characteristicUuid : String) : String :=
  deviceId ++ "|" ++ serviceUuid ++ "|" ++ characteristicUuid

/-- Embedding of `refreshDevices` applied to a `getDevices` response: the
cache is replaced by the response, and the guard
`if (activeDeviceId && !result.some((device) => device.id === activeDeviceId))`
nulls the selection — only when the selection is JS-truthy (non-null and not
the empty string) and no response entry carries its id. -/
def refreshDevices (st : UiState) (result : List BluetoothDevice) : UiState :=
  { st with
    devices := result
    activeDeviceId :=
      match st.activeDeviceId with
      | some id =>
          if id ≠ "" ∧ result.any (fun device => device.id == id) = false then none
          else some id
      | none => none }

/-- Embedding of the source's `handleDisconnectEvent`: when the event names
the currently selected device, drop every subscription key that starts with
``deviceId|``; otherwise only the log changes. -/
def handleDisconnectEvent (payload : DeviceEventPayload) (st : UiState) : UiState :=
  if st.activeDeviceId = some payload.deviceId then
    { st with
      subscribedKeys :=
        st.subscribedKeys.filter
          (fun key => !(strStartsWith key (payload.deviceId ++ "|"))) }
  else st

/-- Embedding of the source's `isSubscribed`: false when no device is
selected or either working UUID is empty, else membership of the working
triple's key. -/
def isSubscribed (st : UiState) : Bool :=
  match st.activeDeviceId with
  | none => false
  | some deviceId =>
      if st.workingServiceUuid = "" ∨ st.workingCharacteristicUuid = "" then false
      else
        st.subscribedKeys.contains
          (subKey deviceId st.workingServiceUuid st.workingCharacteristicUuid)

/-- Embedding of the source's `startNotify`: require a selected device and
both working UUIDs, then append the key unless it is already present. -/
def startNotify (st : UiState) : Except String UiState :=
  match st.activeDeviceId with
  | none => Except.error "Select or request a device first"
  | some deviceId =>
      if st.workingServiceUuid = "" ∨ st.workingCharacteristicUuid = "" then
        Except.error "Set Service and Characteristic before subscribing"
      else
        Except.ok
          { st with
            subscribedKeys :=
              if st.subscribedKeys.contains
                  (subKey deviceId st.workingServiceUuid st.workingCharacteristicUuid) then
                st.subscribedKeys
              else
                st.subscribedKeys ++
                  [subKey deviceId st.workingServiceUuid st.workingCharacteristicUuid] }

/-- Embedding of the source's `stopNotify`: require a selected device and
both working UUIDs, then remove every occurrence of the key. -/
def stopNotify (st : UiState) : Except String UiState :=
  match st.activeDeviceId with
  | none => Except.error "Select or request a device first"
  | some deviceId =>
      if st.workingServiceUuid = "" ∨ st.workingCharacteristicUuid = "" then
        Except.error "Set Service and Characteristic before unsubscribing"
      else
        Except.ok
          { st with
            subscribedKeys :=
              st.subscribedKeys.filter
                (fun item =>
                  item != subKey deviceId st.workingServiceUuid
                    st.workingCharacteristicUuid) }

/-! ### Invocation layer -/

/-- JSON-serializable payload and response values of the invocation
envelope. -/
inductive Json where
  | null
  | bool (b : Bool)
  | str (s : String)
  | num (n : Int)
  | arr (items : List Json)
  | obj (fields : List (String × Json))

/-- One message sent through `invoke`: the full command string and the
payload object it carries. -/
structure Invocation where
  cmd : String
  payload : Json

def NAMESPACE : String := "plugin:web-bluetooth"

/-- Embedding of the binding layer's `call`: invoke the namespaced command
with the given payload, or with the empty object when the payload is
omitted. -/
def call (command : String) (payload : Option Json) : Invocation :=
  { cmd := NAMESPACE ++ "|" ++ command, payload := payload.getD (Json.obj []) }

/-- JavaScript values distinguishing `undefined` from `null`, for the return
value of `ping`. -/
inductive JsValue where
  | undef
  | null
  | str (s : String)
deriving DecidableEq, Repr

/-- Invocation built by the source's `ping`:
`call('ping', { payload: { value } })`. -/
def pingInvocation (value : String) : Invocation :=
  call "ping" (some (Json.obj [("payload", Json.obj [("value", Json.str value)])]))

/-- Return value of the source's `ping`: `response.value ?? null`, where a
response without a `value` field reads as `undefined`. -/
def pingResult (responseValue : Option String) : JsValue :=
  match responseValue with
  | some v => JsValue.str v
  | none => JsValue.null

/-! ### Request-device backend model -/

inductive BluetoothError where
  | adapterUnavailable
  | selectionCancelled
  | invalidFilter
  | scanTimeout
  | unknownDevice
  | connectionFailed
  | notConnected
  | unknownService
  | unknownCharacteristic
  | notReadable
  | notWritable
  | notificationsUnsupported
  | invalidEncoding
  | permissionDenied
deriving DecidableEq, Repr

structure DeviceFilter where
  services : Option (List String)
  name : Option String
  namePrefix : Option String
deriving DecidableEq, Repr

structure RequestDeviceOptions where
  acceptAllDevices : Option Bool
  filters : Option (List DeviceFilter)
  optionalServices : Option (List String)
  scanTimeoutMs : Option Nat
deriving DecidableEq, Repr

/-- Possible outcomes of showing the platform device chooser. -/
inductive ChooserOutcome where
  | selected (device : BluetoothDevice)
  | dismissed
  | timedOut
deriving DecidableEq, Repr

/-- Modelled from the spec: the Rust `request_device` command handler is not
part of the provided sources (only its TypeScript callers are), so its
contract is taken from the spec — "Must fail with `SelectionCancelled` if
the user dismisses the chooser, `InvalidFilter` if neither acceptAllDevices
nor a non-empty filter set is supplied, and `ScanTimeout` if `scanTimeoutMs`
elapses with no selection", and "`requestDevice` with `acceptAllDevices=false`
and empty `filters` always fails with `InvalidFilter`, never reaches the
platform chooser". The first component of the result records whether the
platform chooser was reached. -/
def requestDeviceBackend (options : RequestDeviceOptions)
    (chooser : ChooserOutcome) : Bool × Except BluetoothError BluetoothDevice :=
  if options.acceptAllDevices ≠ some true ∧ options.filters.getD [] = [] then
    (false, Except.error BluetoothError.invalidFilter)
  else
    match chooser with
    | ChooserOutcome.selected device => (true, Except.ok device)
    | ChooserOutcome.dismissed => (true, Except.error BluetoothError.selectionCancelled)
    | ChooserOutcome.timedOut => (true, Except.error BluetoothError.scanTimeout)

/-! ### Supporting lemmas for the state machine -/

theorem isPrefixList_append (p t : List Char) : isPrefixList p (p ++ t) = true := by
  induction p with
  | nil => rfl
  | cons a as ih => simp [isPrefixList, ih]

theorem strStartsWith_subKey (d s c : String) :
    strStartsWith (subKey d s c) (d ++ "|") = true := by
  unfold strStartsWith subKey
  have hdata : (d ++ "|" ++ s ++ "|" ++ c).data =
      (d ++ "|").data ++ (s.data ++ "|".data ++ c.data) := by
    simp [String.data_append, List.append_assoc]
  rw [hdata]
  exact isPrefixList_append _ _

theorem contains_filter_eq_false (l : List String) (pred : String → Bool)
    (a : String) (h : pred a = false) : (l.filter pred).contains a = false := by
  rw [Bool.eq_false_iff]
  intro hc
  have hm : a ∈ l.filter pred := List.elem_iff.mp hc
  have hpa := (List.mem_filter.mp hm).2
  rw [h] at hpa
  exact Bool.false_ne_true hpa

theorem contains_addKey (l : List String) (k : String) :
    (if l.contains k then l else l ++ [k]).contains k = true := by
  by_cases h : l.contains k
  · rw [if_pos h]
    exact h
  · rw [if_neg h]
    exact List.elem_iff.mpr (List.mem_append.mpr (Or.inr (List.mem_singleton.mpr rfl)))

theorem filter_bne_eq_self (l : List String) (k : String)
    (h : l.contains k = false) : l.filter (fun item => item != k) = l := by
  apply List.filter_eq_self.mpr
  intro a ha
  rw [bne_iff_ne, ne_eq]
  rintro rfl
  have hc : l.contains a = true := List.elem_iff.mpr ha
  rw [hc] at h
  simp at h

/-! ### Claim theorems about the state machine and the invocation layer -/

/-- C3 counterexample: a disconnect event for device "X" arriving while
device "Y" is selected leaves the subscription keyed to "X" in place — the
invalidation is guarded by the device being the active one, so selecting
"X" again makes `isSubscribed` report true for a triple that should have
been invalidated. -/
theorem disconnect_nonactive_keeps_subscription_cex :
    (handleDisconnectEvent ⟨"X"⟩
        ⟨[], some "Y", "s", "c", [subKey "X" "s" "c"]⟩).subscribedKeys =
      [subKey "X" "s" "c"] ∧
    isSubscribed
      { handleDisconnectEvent ⟨"X"⟩
          ⟨[], some "Y", "s", "c", [subKey "X" "s" "c"]⟩ with
        activeDeviceId := some "X" } = true := by
  constructor
  · rfl
  · rfl

/-- C3 amended: a gattserver-disconnected event invalidates the
subscriptions keyed to its device only when that device is the currently
selected one — in that case, after the event `isSubscribed` reports false
for every (deviceId, serviceUuid, characteristicUuid) triple of that
device. -/
theorem disconnect_active_invalidates_subscriptions (st : UiState)
    (p : DeviceEventPayload) (svc ch : String)
    (h : st.activeDeviceId = some p.deviceId) :
    isSubscribed
      { handleDisconnectEvent p st with
        workingServiceUuid := svc, workingCharacteristicUuid := ch } = false := by
  unfold handleDisconnectEvent
  rw [if_pos h]
  unfold isSubscribed
  simp only [h]
  by_cases hsc : svc = "" ∨ ch = ""
  · rw [if_pos hsc]
  · rw [if_neg hsc]
    apply contains_filter_eq_false
    rw [strStartsWith_subKey]
    rfl

theorem disconnect_active_invalidates_subscriptions_witness :
    (⟨[], some "X", "s", "c", [subKey "X" "s" "c"]⟩ : UiState).activeDeviceId =
      some (⟨"X"⟩ : DeviceEventPayload).deviceId ∧
    isSubscribed
      { handleDisconnectEvent ⟨"X"⟩
          ⟨[], some "X", "s", "c", [subKey "X" "s" "c"]⟩ with
        workingServiceUuid := "s", workingCharacteristicUuid := "c" } = false :=
  ⟨rfl, disconnect_active_invalidates_subscriptions _ ⟨"X"⟩ "s" "c" rfl⟩

/-- C8 counterexample: with the empty string selected as device id — JS-falsy,
so the guard `if (activeDeviceId && ...)` never fires — a response in which
that id does not occur (here the empty response) leaves the selection in
place instead of clearing it. -/
theorem refreshDevices_falsy_id_kept_cex :
    (∀ device ∈ ([] : List BluetoothDevice), device.id ≠ "") ∧
    (refreshDevices ⟨[], some "", "", "", []⟩ []).activeDeviceId = some "" := by
  constructor
  · decide
  · rfl

/-- C8 amended: a `getDevices` response replaces the device cache mirror
wholesale with exactly the response, and the active selection is cleared
whenever it is a non-empty device id that does not occur in the response
(an empty-string selection is JS-falsy and survives the guard). -/
theorem refreshDevices_wholesale (st : UiState) (result : List BluetoothDevice) :
    (refreshDevices st result).devices = result ∧
    (∀ id, st.activeDeviceId = some id → id ≠ "" →
      (∀ device ∈ result, device.id ≠ id) →
      (refreshDevices st result).activeDeviceId = none) := by
  constructor
  · rfl
  · intro id hid hne habsent
    unfold refreshDevices
    simp only [hid]
    have hany : result.any (fun device => device.id == id) = false := by
      rw [Bool.eq_false_iff]
      intro htrue
      obtain ⟨device, hdev, hbeq⟩ := List.any_eq_true.mp htrue
      exact habsent device hdev (by simpa using hbeq)
    rw [if_pos ⟨hne, hany⟩]

theorem refreshDevices_wholesale_witness :
    (⟨[], some "D1", "", "", []⟩ : UiState).activeDeviceId = some "D1" ∧
    ("D1" : String) ≠ "" ∧
    (∀ device ∈ [(⟨"D2", none, [], false, false⟩ : BluetoothDevice)],
      device.id ≠ "D1") ∧
    (refreshDevices ⟨[], some "D1", "", "", []⟩
        [⟨"D2", none, [], false, false⟩]).devices =
      [(⟨"D2", none, [], false, false⟩ : BluetoothDevice)] ∧
    (refreshDevices ⟨[], some "D1", "", "", []⟩
        [⟨"D2", none, [], false, false⟩]).activeDeviceId = none :=
  ⟨rfl, by decide, by decide,
   (refreshDevices_wholesale ⟨[], some "D1", "", "", []⟩
      [⟨"D2", none, [], false, false⟩]).1,
   (refreshDevices_wholesale ⟨[], some "D1", "", "", []⟩
      [⟨"D2", none, [], false, false⟩]).2 "D1" rfl (by decide) (by decide)⟩

theorem startNotify_ok_fields (st st' : UiState)
    (h : startNotify st = Except.ok st') :
    st'.workingServiceUuid = st.workingServiceUuid ∧
    st'.workingCharacteristicUuid = st.workingCharacteristicUuid ∧
    st'.activeDeviceId = st.activeDeviceId ∧
    ∃ deviceId, st.activeDeviceId = some deviceId ∧
      st'.subscribedKeys =
        (if st.subscribedKeys.contains
            (subKey deviceId st.workingServiceUuid st.workingCharacteristicUuid) then
          st.subscribedKeys
        else
          st.subscribedKeys ++
            [subKey deviceId st.workingServiceUuid st.workingCharacteristicUuid]) := by
  unfold startNotify at h
  split at h
  · exact absurd h (by simp)
  · rename_i deviceId hd
    split at h
    · exact absurd h (by simp)
    · have hst := (Except.ok.inj h).symm
      subst hst
      exact ⟨rfl, rfl, rfl, deviceId, hd, rfl⟩

theorem stopNotify_ok_fields (st st' : UiState)
    (h : stopNotify st = Except.ok st') :
    ∃ deviceId, st.activeDeviceId = some deviceId ∧
      st'.subscribedKeys =
        st.subscribedKeys.filter
          (fun item =>
            item != subKey deviceId st.workingServiceUuid
              st.workingCharacteristicUuid) := by
  unfold stopNotify at h
  split at h
  · exact absurd h (by simp)
  · rename_i deviceId hd
    split at h
    · exact absurd h (by simp)
    · have hst := (Except.ok.inj h).symm
      subst hst
      exact ⟨deviceId, hd, rfl⟩

/-- C9: on the guest subscription state, starting notifications twice
leaves the subscribed-key set exactly as starting once does (no duplicate
entries), and stopping notifications for a key that is not in the set
leaves the set unchanged. -/
theorem notify_idempotent_and_stop_noop :
    (∀ st st₁ st₂ : UiState, startNotify st = Except.ok st₁ →
        startNotify st₁ = Except.ok st₂ →
        st₂.subscribedKeys = st₁.subscribedKeys) ∧
    (∀ (st st' : UiState) (deviceId : String),
        st.activeDeviceId = some deviceId →
        st.subscribedKeys.contains
          (subKey deviceId st.workingServiceUuid st.workingCharacteristicUuid) =
          false →
        stopNotify st = Except.ok st' →
        st'.subscribedKeys = st.subscribedKeys) := by
  constructor
  · intro st st₁ st₂ h1 h2
    obtain ⟨hw1, hc1, ha1, deviceId, hd, hkeys1⟩ := startNotify_ok_fields st st₁ h1
    obtain ⟨_, _, _, deviceId₂, hd₂, hkeys2⟩ := startNotify_ok_fields st₁ st₂ h2
    have hdev : deviceId₂ = deviceId := by
      rw [ha1, hd] at hd₂
      exact (Option.some.inj hd₂).symm
    subst hdev
    rw [hkeys2, hw1, hc1, hkeys1, if_pos (contains_addKey _ _)]
  · intro st st' deviceId hd hfree h
    obtain ⟨deviceId₂, hd₂, hkeys⟩ := stopNotify_ok_fields st st' h
    have hdev : deviceId₂ = deviceId := by
      rw [hd] at hd₂
      exact (Option.some.inj hd₂).symm
    subst hdev
    rw [hkeys]
    exact filter_bne_eq_self _ _ hfree

theorem notify_idempotent_and_stop_noop_witness :
    (startNotify ⟨[], some "D", "s", "c", []⟩ =
        Except.ok ⟨[], some "D", "s", "c", [subKey "D" "s" "c"]⟩ ∧
      startNotify ⟨[], some "D", "s", "c", [subKey "D" "s" "c"]⟩ =
        Except.ok ⟨[], some "D", "s", "c", [subKey "D" "s" "c"]⟩ ∧
      (⟨[], some "D", "s", "c", [subKey "D" "s" "c"]⟩ : UiState).subscribedKeys =
        (⟨[], some "D", "s", "c", [subKey "D" "s" "c"]⟩ : UiState).subscribedKeys) ∧
    ((⟨[], some "D", "s", "c", []⟩ : UiState).activeDeviceId = some "D" ∧
      (⟨[], some "D", "s", "c", []⟩ : UiState).subscribedKeys.contains
        (subKey "D" "s" "c") = false ∧
      stopNotify ⟨[], some "D", "s", "c", []⟩ =
        Except.ok ⟨[], some "D", "s", "c", []⟩ ∧
      (⟨[], some "D", "s", "c", []⟩ : UiState).subscribedKeys =
        (⟨[], some "D", "s", "c", []⟩ : UiState).subscribedKeys) :=
  ⟨⟨rfl, rfl,
    notify_idempotent_and_stop_noop.1 ⟨[], some "D", "s", "c", []⟩ _ _ rfl rfl⟩,
   rfl, rfl, rfl,
   notify_idempotent_and_stop_noop.2 ⟨[], some "D", "s", "c", []⟩
     ⟨[], some "D", "s", "c", []⟩ "D" rfl rfl rfl⟩

/-- C6: the invocation layer sends exactly the namespaced command string
`"plugin:web-bluetooth" ++ "|" ++ command` with the given payload forwarded
unchanged, and sends the empty object when the payload is omitted. -/
theorem call_namespaced_envelope :
    ∀ (command : String) (payload : Json),
      call command (some payload) =
        { cmd := "plugin:web-bluetooth" ++ "|" ++ command, payload := payload } ∧
      call command none =
        { cmd := "plugin:web-bluetooth" ++ "|" ++ command,
          payload := Json.obj [] } := by
  intro command payload
  exact ⟨rfl, rfl⟩

/-- C10: `ping` invokes the command "ping" with payload
`{payload: {value}}` and returns the response's value field when present,
and null — not undefined — when the response carries no value field. -/
theorem ping_envelope_and_null_default :
    ∀ value : String,
      pingInvocation value =
        { cmd := "plugin:web-bluetooth" ++ "|" ++ "ping",
          payload := Json.obj [("payload", Json.obj [("value", Json.str value)])] } ∧
      (∀ v : String, pingResult (some v) = JsValue.str v) ∧
      pingResult none = JsValue.null ∧
      JsValue.null ≠ JsValue.undef := by
  intro value
  exact ⟨rfl, fun _ => rfl, rfl, by decide⟩

/-- C1: requesting a device with `acceptAllDevices` false or absent and an
empty (or absent) filter list fails with `InvalidFilter` and the platform
chooser is never reached, for every such options value and every behaviour
of the chooser. -/
theorem requestDevice_empty_filters_invalidFilter
    (options : RequestDeviceOptions) (chooser : ChooserOutcome)
    (hAccept : options.acceptAllDevices = some false ∨
      options.acceptAllDevices = none)
    (hFilters : options.filters = some [] ∨ options.filters = none) :
    requestDeviceBackend options chooser =
      (false, Except.error BluetoothError.invalidFilter) := by
  unfold requestDeviceBackend
  rw [if_pos]
  constructor
  · rcases hAccept with h | h <;> rw [h] <;> simp
  · rcases hFilters with h | h <;> rw [h] <;> rfl

theorem requestDevice_empty_filters_invalidFilter_witness :
    ((⟨some false, some [], none, none⟩ : RequestDeviceOptions).acceptAllDevices =
        some false ∨
      (⟨some false, some [], none, none⟩ : RequestDeviceOptions).acceptAllDevices =
        none) ∧
    ((⟨some false, some [], none, none⟩ : RequestDeviceOptions).filters =
        some [] ∨
      (⟨some false, some [], none, none⟩ : RequestDeviceOptions).filters = none) ∧
    requestDeviceBackend ⟨some false, some [], none, none⟩
        ChooserOutcome.dismissed =
      (false, Except.error BluetoothError.invalidFilter) :=
  ⟨Or.inl rfl, Or.inl rfl,
   requestDevice_empty_filters_invalidFilter _ _ (Or.inl rfl) (Or.inl rfl)⟩

end WebBluetooth
